import Mathlib

/-!
Verification of the voice-call service sources against their design
specification. The embedding below translates, from the Python sources,
the AI Backend Gateway calls (N8NLLMProcessor.call_n8n_agent in main.py and
pipecat_bot.py, N8NVoiceBot._call_n8n_webhook in bot.py, N8NLLMService.call_n8n
in voice-processing-service.py), the per-turn frame processing, the request
payload construction, the import-time environment validation, the
session-identifier creation, and the ElevenLabs text-to-speech wrapper.
Network interactions are abstracted by an outcome parameter listing the events
the except-clauses of the code distinguish.
-/

namespace VoiceCallService

/-- Pipecat frames the processors act on: transcriptions in, text for
text-to-speech out, raw synthesized audio for the TTS wrapper, and a
catch-all for every other frame kind (passed through unchanged). -/
inductive Frame where
  | transcription (text : String)
  | text (s : String)
  | ttsAudioRaw (audio : List Nat) (sampleRate : Nat) (numChannels : Nat)
  | other
deriving DecidableEq, Repr

/-- A webhook response JSON body, restricted to the three candidate reply
fields the extraction code reads; none models an absent field. -/
structure N8nResponse where
  output : Option String
  text : Option String
  message : Option String
deriving DecidableEq, Repr

/-- Outcome of one webhook POST, abstracting the network: a parsed JSON body
on HTTP success, or one of the failure events the except-clauses of the code
distinguish (client timeout, raise_for_status on a bad status, a body that is
not JSON, anything else). -/
inductive HttpOutcome where
  | success (body : N8nResponse)
  | timeout
  | statusError (code : Nat)
  | jsonError
  | otherError
deriving DecidableEq, Repr

/-- Whether the outcome makes the httpx-based gateway call raise. -/
def HttpOutcome.fails : HttpOutcome → Bool
  | .success _ => false
  | _ => true

/-- Reply extraction of N8NLLMProcessor.call_n8n_agent, main.py line 116 and
pipecat_bot.py line 95: result.get with nested defaults over output, text,
message — the value of the first present field, whether or not that value is
empty, else a fixed fallback sentence. -/
def extractReplyMain (r : N8nResponse) : String :=
  r.output.getD (r.text.getD (r.message.getD "I didn't understand that."))

/-- Reply extraction of N8NVoiceBot._call_n8n_webhook, bot.py lines 96 to 102:
result.get over output then text only, with an overall falsy (empty)
extraction replaced by a fixed fallback sentence. -/
def extractReplyBot (r : N8nResponse) : String :=
  let raw := r.output.getD (r.text.getD "")
  if raw = "" then "I didn't get a proper response. Could you repeat that?" else raw

/-- Reply extraction as the specification words it: the first present and
non-empty value among output, then text, then message; none when no candidate
is present and non-empty (the MalformedResponse case). Stated from the
specification for comparison with the extractions of the code. -/
def specFirstNonEmptyReply (r : N8nResponse) : Option String :=
  (([r.output, r.text, r.message].filterMap id).filter (fun v => v ≠ "")).head?

/-- The JSON payload N8NLLMProcessor.call_n8n_agent posts, main.py lines 94 to
98 and pipecat_bot.py lines 73 to 77, as an ordered field list. -/
def mkPayloadMain (text sessionId : String) : List (String × String) :=
  [("message", text), ("sessionId", sessionId), ("channel", "voice_call")]

/-- The JSON payload N8NVoiceBot._call_n8n_webhook posts, bot.py lines 73 to
77. -/
def mkPayloadBot (text sessionId : String) : List (String × String) :=
  [("message", text), ("sessionId", sessionId), ("channel", "voice_call")]

/-- The JSON payload N8NLLMService.call_n8n posts, voice-processing-service.py
lines 66 to 70: its channel tag is voice_call_realtime. -/
def mkPayloadService (text sessionId : String) : List (String × String) :=
  [("message", text), ("sessionId", sessionId), ("channel", "voice_call_realtime")]

/-- Python str.strip as the sources use it: removes leading and trailing
whitespace characters from both ends (Char.isWhitespace approximates Python's
whitespace class; interior whitespace is kept). -/
def pyStrip (s : String) : String :=
  String.mk (List.reverse (List.dropWhile Char.isWhitespace
    (List.reverse (List.dropWhile Char.isWhitespace s.data))))

/-- Classified failures N8NLLMProcessor.call_n8n_agent raises, main.py lines
120 to 128: a timeout message on httpx.TimeoutException, an
unavailable-service message on httpx.HTTPStatusError, and the original
exception re-raised otherwise. -/
inductive GatewayFailure where
  | timeout
  | backendUnavailable
  | other
deriving DecidableEq, Repr

/-- N8NLLMProcessor.call_n8n_agent, main.py lines 87 to 128 (identical in
pipecat_bot.py lines 66 to 107): posts exactly one payload of fixed shape with
channel voice_call, extracts the reply on success, and raises a classified
failure otherwise. First component: the one payload sent; second: the
result. -/
def call_n8n_agent (sessionId text : String) (o : HttpOutcome) :
    List (String × String) × Except GatewayFailure String :=
  (mkPayloadMain text sessionId,
    match o with
    | .success body => .ok (extractReplyMain body)
    | .timeout => .error .timeout
    | .statusError _ => .error .backendUnavailable
    | .jsonError => .error .other
    | .otherError => .error .other)

/-- N8NVoiceBot._call_n8n_webhook, bot.py lines 66 to 114: every failure kind
is caught inside the helper and mapped to a fixed fallback sentence, so every
branch returns; the Except codomain records whether a branch raises — none
does. -/
def call_n8n_webhook (sessionId text : String) (o : HttpOutcome) :
    List (String × String) × Except Unit String :=
  (mkPayloadBot text sessionId,
    match o with
    | .success body => .ok (extractReplyBot body)
    | .timeout => .ok "The response is taking too long. Let me try again."
    | .statusError _ => .ok "I'm having trouble connecting to my knowledge base."
    | .jsonError => .ok "Something went wrong. Please try again."
    | .otherError => .ok "Something went wrong. Please try again.")

/-- What N8NLLMService.call_n8n raises, voice-processing-service.py lines 78
to 82: a generic exception carrying the HTTP status on a non-200 response;
every other error (timeouts included) propagates out of the aiohttp calls
without classification. -/
inductive ServiceFailure where
  | httpStatus (code : Nat)
  | unclassified
deriving DecidableEq, Repr

/-- N8NLLMService.call_n8n, voice-processing-service.py lines 61 to 82: posts
one payload whose channel is voice_call_realtime using an aiohttp client
session opened with no timeout argument, returns result.get of output with a
fixed default on HTTP 200, raises a generic exception on any other status, and
lets every other error propagate unclassified. -/
def call_n8n (sessionId text : String) (o : HttpOutcome) :
    List (String × String) × Except ServiceFailure String :=
  (mkPayloadService text sessionId,
    match o with
    | .success body => .ok (body.output.getD "I didn't understand that.")
    | .statusError c => .error (.httpStatus c)
    | .timeout => .error .unclassified
    | .jsonError => .error .unclassified
    | .otherError => .error .unclassified)

/-- Client timeout in seconds (none when the call site sets no explicit
timeout) and the number of HTTP requests one invocation issues, read off each
gateway call site. -/
structure GatewayCallPolicy where
  timeoutSeconds : Option Nat
  requestsPerCall : Nat
deriving DecidableEq, Repr

/-- main.py line 102 and pipecat_bot.py line 81: httpx.AsyncClient with
timeout 20.0, a single POST, no retry loop. -/
def call_n8n_agentPolicy : GatewayCallPolicy := ⟨some 20, 1⟩

/-- bot.py line 81: httpx.AsyncClient with timeout 20.0, a single POST, no
retry loop. -/
def call_n8n_webhookPolicy : GatewayCallPolicy := ⟨some 20, 1⟩

/-- voice-processing-service.py line 72: aiohttp.ClientSession opened with no
timeout argument, a single POST, no retry loop. -/
def call_n8nPolicy : GatewayCallPolicy := ⟨none, 1⟩

/-- What one processed turn does: the frames pushed downstream (text frames go
on to text-to-speech), how many AI-webhook calls were made, and whether any
code path ended the session — no such path exists in the sources, which the
translated step functions record by always returning false. -/
structure TurnResult where
  frames : List Frame
  gatewayCalls : Nat
  endsSession : Bool
deriving DecidableEq, Repr

/-- The fixed apology of the except-branches: error_response in
N8NLLMProcessor.process_frame, main.py line 79 and pipecat_bot.py line 58, and
the same sentence inline in N8NVoiceBot.on_user_message, bot.py line 64. -/
def errorResponse : String := "I'm having some technical difficulties. Please try again."

/-- N8NLLMProcessor.process_frame, main.py lines 59 to 85 (identical in
pipecat_bot.py lines 38 to 64): strips the transcription, ignores it unless
non-empty and longer than 2 characters, otherwise calls the AI webhook once
with the stripped text, yielding the reply on success and the fixed apology on
any raised failure; non-transcription frames pass through. No path terminates
the session. -/
def process_frame (sessionId : String) (o : HttpOutcome) (f : Frame) : TurnResult :=
  match f with
  | .transcription t =>
    let u := pyStrip t
    if u ≠ "" ∧ u.length > 2 then
      match (call_n8n_agent sessionId u o).2 with
      | .ok reply => ⟨[.text reply], 1, false⟩
      | .error _ => ⟨[.text errorResponse], 1, false⟩
    else ⟨[], 0, false⟩
  | f => ⟨[f], 0, false⟩

/-- N8NVoiceBot.on_user_message, bot.py lines 42 to 64: returns without any
call when the stripped text has fewer than 3 characters; otherwise calls the
webhook helper with the raw text and speaks its result, speaking the fixed
apology only if the helper raised. No path terminates the session. -/
def on_user_message (sessionId : String) (o : HttpOutcome) (text : String) : TurnResult :=
  if (pyStrip text).length < 3 then ⟨[], 0, false⟩
  else
    match (call_n8n_webhook sessionId text o).2 with
    | .ok reply => ⟨[.text reply], 1, false⟩
    | .error _ => ⟨[.text errorResponse], 1, false⟩

/-- Count of non-whitespace characters of a transcript: the
minimum-meaningful-length measure as the specification words it (fewer than 3
non-whitespace characters is trivial). Stated from the specification for
comparison with the thresholds of the code. -/
def countNonWhitespace (s : String) : Nat :=
  (s.data.filter (fun c => !c.isWhitespace)).length

/-- Python truthiness of an optional environment string: an unset variable and
an empty value are falsy. -/
def envTruthy : Option String → Bool
  | none => false
  | some s => s != ""

/-- The environment variables main.py validates at import, lines 35 to 45. -/
structure Env where
  deepgramApiKey : Option String
  elevenlabsApiKey : Option String
  n8nWebhookUrl : Option String
deriving DecidableEq, Repr

/-- Import-time validation of main.py lines 43 to 45: when not all required
variables are truthy it logs a warning and continues — import never raises.
The returned Bool records whether the warning was logged. -/
def startupMain (e : Env) : Except String Bool :=
  .ok (!(envTruthy e.deepgramApiKey && envTruthy e.elevenlabsApiKey &&
    envTruthy e.n8nWebhookUrl))

/-- VoiceBot constructor of main.py lines 133 to 138: raises ValueError when
the webhook URL is falsy, else keeps it. Runs per created session, from
create_room, not at startup. -/
def voiceBotInit (n8nWebhookUrl : Option String) : Except String String :=
  match n8nWebhookUrl with
  | some url => if url ≠ "" then .ok url else .error "N8N_WEBHOOK_URL is not configured"
  | none => .error "N8N_WEBHOOK_URL is not configured"

/-- Session identifier of main.py line 56, pipecat_bot.py line 35 and bot.py
line 31: the text voice_ followed by the decimal rendering of int(time.time()),
the current whole wall-clock second. -/
def mkVoiceSessionId (epochSeconds : Nat) : String :=
  "voice_" ++ Nat.repr epochSeconds

/-- State N8NLLMProcessor.__init__ establishes, main.py lines 53 to 57: the
webhook URL and a session identifier derived solely from the wall-clock
second. The state carries no fault counter and process_frame never mutates
it. -/
structure N8NLLMProcessorState where
  webhookUrl : String
  sessionId : String
deriving DecidableEq, Repr

/-- N8NLLMProcessor.__init__, main.py lines 53 to 57. -/
def n8nProcessorInit (webhookUrl : String) (epochSeconds : Nat) : N8NLLMProcessorState :=
  ⟨webhookUrl, mkVoiceSessionId epochSeconds⟩

/-- State N8NVoiceBot.__init__ establishes, bot.py lines 24 to 33: the webhook
URL exactly as read from the environment — absent stays absent, nothing
validates it — and a session identifier derived from the wall-clock second. -/
structure N8NVoiceBotState where
  n8nWebhookUrl : Option String
  sessionId : String
deriving DecidableEq, Repr

/-- N8NVoiceBot.__init__, bot.py lines 24 to 33. -/
def n8nVoiceBotInit (url : Option String) (epochSeconds : Nat) : N8NVoiceBotState :=
  ⟨url, mkVoiceSessionId epochSeconds⟩

/-- An HTTP response of the ElevenLabs endpoint: its status and raw body
bytes. -/
structure TTSHttpResponse where
  status : Nat
  body : List Nat
deriving DecidableEq, Repr

/-- ElevenLabsTTS.text_to_speech, voice-processing-service.py lines 191 to
217: returns the body bytes on status 200 and the empty byte string on every
other status. -/
def text_to_speech (text : String) (resp : TTSHttpResponse) : List Nat :=
  if resp.status = 200 then resp.body else []

/-- ElevenLabsTTS.process_frame, voice-processing-service.py lines 180 to 189:
a TextFrame is synthesized into a TTSAudioRawFrame at 24000 Hz, one channel,
carrying whatever text_to_speech returned; every other frame passes
through. -/
def elevenLabsProcessFrame (resp : TTSHttpResponse) (f : Frame) : Frame :=
  match f with
  | .text t => .ttsAudioRaw (text_to_speech t resp) 24000 1
  | f => f

/-- Decimal digit list of a natural number, most significant first, by direct
structural recursion: the reference shape for Nat.repr, used to reason about
collisions of the session identifiers. -/
def decDigits (n : Nat) : List Char :=
  if h : n < 10 then [Nat.digitChar n]
  else decDigits (n / 10) ++ [Nat.digitChar (n % 10)]
decreasing_by
  exact Nat.div_lt_self (by omega) (by omega)

/-! Helper lemmas. -/

lemma decDigits_lt (n : Nat) (h : n < 10) : decDigits n = [Nat.digitChar n] := by
  rw [decDigits.eq_def, dif_pos h]

lemma decDigits_ge (n : Nat) (h : ¬ n < 10) :
    decDigits n = decDigits (n / 10) ++ [Nat.digitChar (n % 10)] := by
  conv_lhs => rw [decDigits.eq_def]
  rw [dif_neg h]

lemma decDigits_ne_nil (n : Nat) : decDigits n ≠ [] := by
  by_cases h : n < 10
  · rw [decDigits_lt n h]; simp
  · rw [decDigits_ge n h]; simp

lemma toDigitsCore_eq_decDigits (fuel : Nat) :
    ∀ (n : Nat) (acc : List Char), n < fuel →
      Nat.toDigitsCore 10 fuel n acc = decDigits n ++ acc := by
  induction fuel with
  | zero => intro n acc h; omega
  | succ fuel ih =>
    intro n acc h
    by_cases h0 : n / 10 = 0
    · have h10 : n < 10 := by omega
      have hstep : Nat.toDigitsCore 10 (fuel + 1) n acc = Nat.digitChar (n % 10) :: acc := by
        simp [Nat.toDigitsCore, h0]
      rw [hstep, decDigits_lt n h10, Nat.mod_eq_of_lt h10]
      simp
    · have hstep : Nat.toDigitsCore 10 (fuel + 1) n acc =
          Nat.toDigitsCore 10 fuel (n / 10) (Nat.digitChar (n % 10) :: acc) := by
        simp [Nat.toDigitsCore, h0]
      rw [hstep, ih (n / 10) _ (by omega), decDigits_ge n (by omega)]
      simp

lemma digitChar_injOn :
    ∀ a, a < 10 → ∀ b, b < 10 → Nat.digitChar a = Nat.digitChar b → a = b := by
  decide

lemma decDigits_inj : ∀ m n : Nat, decDigits m = decDigits n → m = n := by
  intro m
  induction m using Nat.strong_induction_on with
  | _ m ih =>
    intro n h
    by_cases hm : m < 10 <;> by_cases hn : n < 10
    · rw [decDigits_lt m hm, decDigits_lt n hn] at h
      exact digitChar_injOn m hm n hn (by simpa using h)
    · rw [decDigits_lt m hm, decDigits_ge n hn] at h
      have hlen := congrArg List.length h
      simp only [List.length_append, List.length_singleton, List.length_cons,
        List.length_nil] at hlen
      have h0 : (decDigits (n / 10)).length = 0 := by omega
      exact absurd (List.length_eq_zero.mp h0) (decDigits_ne_nil (n / 10))
    · rw [decDigits_ge m hm, decDigits_lt n hn] at h
      have hlen := congrArg List.length h
      simp only [List.length_append, List.length_singleton, List.length_cons,
        List.length_nil] at hlen
      have h0 : (decDigits (m / 10)).length = 0 := by omega
      exact absurd (List.length_eq_zero.mp h0) (decDigits_ne_nil (m / 10))
    · rw [decDigits_ge m hm, decDigits_ge n hn] at h
      obtain ⟨h1, h2⟩ := List.append_inj' h (by simp)
      have e1 : m / 10 = n / 10 :=
        ih (m / 10) (Nat.div_lt_self (by omega) (by omega)) (n / 10) h1
      have e2 : m % 10 = n % 10 :=
        digitChar_injOn _ (Nat.mod_lt m (by omega)) _ (Nat.mod_lt n (by omega))
          (by simpa using h2)
      omega

lemma natRepr_eq_decDigits (n : Nat) : Nat.repr n = (decDigits n).asString := by
  simp only [Nat.repr, Nat.toDigits]
  rw [toDigitsCore_eq_decDigits (n + 1) n [] (Nat.lt_succ_self n), List.append_nil]

lemma natRepr_inj (m n : Nat) (h : Nat.repr m = Nat.repr n) : m = n := by
  apply decDigits_inj
  rw [natRepr_eq_decDigits, natRepr_eq_decDigits] at h
  exact congrArg String.data h

lemma mkVoiceSessionId_inj (s t : Nat) (h : mkVoiceSessionId s = mkVoiceSessionId t) :
    s = t := by
  apply natRepr_inj
  have hd := congrArg String.data h
  simp only [mkVoiceSessionId, String.data_append] at hd
  exact String.ext (List.append_cancel_left hd)

lemma extractReplyBot_ne_empty (r : N8nResponse) : extractReplyBot r ≠ "" := by
  unfold extractReplyBot
  by_cases h : r.output.getD (r.text.getD "") = ""
  · simp only [h, if_pos rfl]
    decide
  · simp only [if_neg h]
    exact h

lemma pyStrip_length_ne_empty (t : String) (h : 2 < (pyStrip t).length) : pyStrip t ≠ "" := by
  intro he
  rw [he] at h
  simp [String.length] at h

lemma process_frame_failure (sid t : String) (o : HttpOutcome)
    (hfail : o.fails = true) (hlen : 2 < (pyStrip t).length) :
    process_frame sid o (.transcription t) = ⟨[Frame.text errorResponse], 1, false⟩ := by
  have hc : pyStrip t ≠ "" ∧ (pyStrip t).length > 2 := ⟨pyStrip_length_ne_empty t hlen, hlen⟩
  cases o with
  | success body => simp [HttpOutcome.fails] at hfail
  | timeout => simp [process_frame, call_n8n_agent, hc]
  | statusError c => simp [process_frame, call_n8n_agent, hc]
  | jsonError => simp [process_frame, call_n8n_agent, hc]
  | otherError => simp [process_frame, call_n8n_agent, hc]

/-! Claim theorems. -/

/-- C1: refuted at the response body with output equal to the empty string and
text equal to hi — main.py returns the empty string as a successful reply and
raises nothing, bot.py returns its canned fallback, while the first present
non-empty candidate field holds hi; and at the body with no candidate field at
all, the gateway returns a fixed sentence instead of raising a
malformed-response failure. -/
theorem C1_empty_output_counterexample :
    (call_n8n_agent "s1" "hello" (.success ⟨some "", some "hi", none⟩)).2 = .ok "" ∧
    extractReplyBot ⟨some "", some "hi", none⟩ =
      "I didn't get a proper response. Could you repeat that?" ∧
    specFirstNonEmptyReply ⟨some "", some "hi", none⟩ = some "hi" ∧
    (call_n8n_agent "s1" "hello" (.success ⟨none, none, none⟩)).2 =
      .ok "I didn't understand that." := by
  exact ⟨rfl, by decide, by decide, rfl⟩

/-- C1 amended: reply extraction uses the first PRESENT candidate field —
output, then text, then message in main.py; output then text only in bot.py —
whether or not its value is empty, and falls back to a fixed non-empty
sentence instead of raising when none is present; a present-but-empty first
field makes main.py return the empty string as a successful reply, while
bot.py replaces any empty extraction with a non-empty canned sentence. -/
theorem C1_reply_extraction_amended (r : N8nResponse) (sid t : String) :
    (call_n8n_agent sid t (.success r)).2 = .ok (extractReplyMain r) ∧
    (extractReplyMain r = "" ↔
      r.output = some "" ∨ (r.output = none ∧ r.text = some "") ∨
        (r.output = none ∧ r.text = none ∧ r.message = some "")) ∧
    extractReplyBot r ≠ "" ∧
    ((r.output = none ∧ r.text = none ∧ r.message = none) →
      extractReplyMain r = "I didn't understand that." ∧
      specFirstNonEmptyReply r = none) := by
  refine ⟨rfl, ?_, extractReplyBot_ne_empty _, ?_⟩
  · obtain ⟨o, t', m⟩ := r
    cases o <;> cases t' <;> cases m <;> simp [extractReplyMain]
  · rintro ⟨ho, ht, hm⟩
    obtain ⟨o, t', m⟩ := r
    simp_all [extractReplyMain, specFirstNonEmptyReply]

/-- C2: refuted — three consecutive timeout failures on one session produce
three apology turns, each leaving the session untouched (no turn ends the
session, the processor state carries no fault counter to exceed), instead of
a transition to a terminated state and removal. -/
theorem C2_three_failures_counterexample :
    [HttpOutcome.timeout, HttpOutcome.timeout, HttpOutcome.timeout].map
        (fun x => process_frame "voice_1700000000" x (.transcription "hello there")) =
      List.replicate 3 ⟨[Frame.text errorResponse], 1, false⟩ := by
  decide

/-- C2 amended: the pipeline keeps no fault counter — any number of
consecutive AI-gateway failures yields that same number of apology turns, each
turn identical with its end-session effect false; in particular neither a
single failure nor three consecutive failures terminate the session or remove
it. -/
theorem C2_no_fault_counter (sid t : String) (o : HttpOutcome) (n : Nat)
    (hfail : o.fails = true) (hlen : 2 < (pyStrip t).length) :
    (List.replicate n o).map (fun x => process_frame sid x (.transcription t)) =
      List.replicate n ⟨[Frame.text errorResponse], 1, false⟩ := by
  induction n with
  | zero => rfl
  | succ n ih =>
    rw [List.replicate_succ, List.map_cons, ih,
      process_frame_failure sid t o hfail hlen, List.replicate_succ]

/-- Witness for the amended C2 at three consecutive timeouts on a concrete
session and transcript. -/
theorem C2_no_fault_counter_witness :
    (List.replicate 3 HttpOutcome.timeout).map
        (fun x => process_frame "voice_9" x (.transcription "tell me a joke")) =
      List.replicate 3 ⟨[Frame.text errorResponse], 1, false⟩ :=
  C2_no_fault_counter "voice_9" "tell me a joke" HttpOutcome.timeout 3 (by decide) (by decide)

/-- C3: every turn whose gateway call fails — timeout, HTTP status error,
malformed body, or any other exception — pushes exactly one fixed non-empty
utterance to text-to-speech and makes exactly one call attempt, and no code
path ends the session: the failing turn never yields silence and a single
occurrence never terminates the session, in main.py's process_frame (the one
fixed apology) and bot.py's on_user_message (a fixed non-empty fallback
spoken through the normal reply path). -/
theorem C3_failure_turn_speaks (sid t : String) (o : HttpOutcome)
    (hfail : o.fails = true) (hlen : 2 < (pyStrip t).length) :
    process_frame sid o (.transcription t) = ⟨[Frame.text errorResponse], 1, false⟩ ∧
    errorResponse ≠ "" ∧
    (∃ s, s ≠ "" ∧ on_user_message sid o t = ⟨[Frame.text s], 1, false⟩) := by
  refine ⟨process_frame_failure sid t o hfail hlen, by decide, ?_⟩
  have h3 : ¬ (pyStrip t).length < 3 := by omega
  cases o with
  | success body => simp [HttpOutcome.fails] at hfail
  | timeout =>
    exact ⟨"The response is taking too long. Let me try again.", by decide,
      by simp [on_user_message, call_n8n_webhook, h3]⟩
  | statusError c =>
    exact ⟨"I'm having trouble connecting to my knowledge base.", by decide,
      by simp [on_user_message, call_n8n_webhook, h3]⟩
  | jsonError =>
    exact ⟨"Something went wrong. Please try again.", by decide,
      by simp [on_user_message, call_n8n_webhook, h3]⟩
  | otherError =>
    exact ⟨"Something went wrong. Please try again.", by decide,
      by simp [on_user_message, call_n8n_webhook, h3]⟩

/-- Witness for C3 at a concrete HTTP status failure, session and
transcript. -/
theorem C3_failure_turn_speaks_witness :
    process_frame "voice_2" (.statusError 503) (.transcription "good morning") =
        ⟨[Frame.text errorResponse], 1, false⟩ ∧
    errorResponse ≠ "" ∧
    (∃ s, s ≠ "" ∧ on_user_message "voice_2" (.statusError 503) "good morning" =
        ⟨[Frame.text s], 1, false⟩) :=
  C3_failure_turn_speaks "voice_2" "good morning" (.statusError 503) (by decide) (by decide)

/-- C4: refuted at the transcript consisting of the letter a, a space and the
letter b — it has only 2 non-whitespace characters, yet the gateway is called
once by both variants: the code thresholds on the length of the stripped
string, interior space included, not on the count of non-whitespace
characters. -/
theorem C4_short_transcript_counterexample :
    countNonWhitespace "a b" = 2 ∧
    (process_frame "s1" (.success ⟨some "ok", none, none⟩)
      (.transcription "a b")).gatewayCalls = 1 ∧
    (on_user_message "s1" (.success ⟨some "ok", none, none⟩) "a b").gatewayCalls = 1 := by
  refine ⟨by decide, by decide, by decide⟩

/-- C4 amended: the discard threshold is the length of the whitespace-stripped
transcript: both variants call the gateway exactly once when that length is at
least 3 and never call it otherwise (main.py tests strictly-greater-than-2 on
the stripped text, bot.py tests less-than-3 — the same predicate); interior
whitespace counts toward this length, unlike the specification's count of
non-whitespace characters. -/
theorem C4_min_length_gating (sid t : String) (o : HttpOutcome) :
    (process_frame sid o (.transcription t)).gatewayCalls =
        (if 2 < (pyStrip t).length then 1 else 0) ∧
    (on_user_message sid o t).gatewayCalls = (if 2 < (pyStrip t).length then 1 else 0) := by
  constructor
  · by_cases h : 2 < (pyStrip t).length
    · have hc : pyStrip t ≠ "" ∧ (pyStrip t).length > 2 := ⟨pyStrip_length_ne_empty t h, h⟩
      cases hr : (call_n8n_agent sid (pyStrip t) o).2 <;>
        simp [process_frame, hc, hr, h]
    · have hc : ¬(pyStrip t ≠ "" ∧ (pyStrip t).length > 2) := fun hcc => h hcc.2
      simp [process_frame, hc, h]
  · by_cases h : 2 < (pyStrip t).length
    · have h3 : ¬ (pyStrip t).length < 3 := by omega
      cases hr : (call_n8n_webhook sid t o).2 <;>
        simp [on_user_message, h3, hr, h]
    · have h3 : (pyStrip t).length < 3 := by omega
      simp [on_user_message, h3, h]

/-- C5: refuted — the aiohttp-based gateway call N8NLLMService.call_n8n opens
its client session with no timeout argument at all, so that gateway call is
not made with a bounded 15-to-20-second timeout. -/
theorem C5_no_timeout_counterexample :
    call_n8nPolicy.timeoutSeconds = none ∧
    (∀ x, call_n8nPolicy.timeoutSeconds = some x → ¬(15 ≤ x ∧ x ≤ 20)) := by
  exact ⟨rfl, fun x h => by simp [call_n8nPolicy] at h⟩

/-- C5 amended: the httpx-based gateway calls — call_n8n_agent of main.py and
pipecat_bot.py, the webhook helper of bot.py — run under a 20-second client
timeout, inside the claimed 15-to-20 band, and issue exactly one HTTP request
per invocation with no retry; main.py classifies an elapsed timeout as its
timeout failure while bot.py swallows it into a fixed fallback reply; the
aiohttp-based N8NLLMService.call_n8n also issues exactly one request and never
retries, but sets no explicit timeout and a timeout there propagates
unclassified. -/
theorem C5_timeout_policy (sid t : String) :
    call_n8n_agentPolicy = ⟨some 20, 1⟩ ∧ 15 ≤ 20 ∧ 20 ≤ 20 ∧
    call_n8n_webhookPolicy = ⟨some 20, 1⟩ ∧
    call_n8nPolicy = ⟨none, 1⟩ ∧
    (call_n8n_agent sid t .timeout).2 = .error .timeout ∧
    (call_n8n_webhook sid t .timeout).2 =
      .ok "The response is taking too long. Let me try again." ∧
    (call_n8n sid t .timeout).2 = .error .unclassified := by
  exact ⟨rfl, by omega, by omega, rfl, rfl, rfl, rfl, rfl⟩

/-- C6: refuted — the payload N8NLLMService.call_n8n posts carries the channel
value voice_call_realtime, which is not the string voice_call. -/
theorem C6_channel_counterexample :
    ((call_n8n "s1" "hi" .timeout).1.lookup "channel" = some "voice_call_realtime") ∧
    ("voice_call_realtime" : String) ≠ "voice_call" := by
  exact ⟨by decide, by decide⟩

/-- C6 amended: every variant posts exactly the three fields message,
sessionId, channel, in that order, with message carrying the user text and
sessionId the session identifier; the channel value is voice_call in the
main.py, pipecat_bot.py and bot.py variants and voice_call_realtime in the
voice-processing-service.py variant. -/
theorem C6_payload_shape (text sid : String) (o : HttpOutcome) :
    (call_n8n_agent sid text o).1 =
        [("message", text), ("sessionId", sid), ("channel", "voice_call")] ∧
    (call_n8n_webhook sid text o).1 =
        [("message", text), ("sessionId", sid), ("channel", "voice_call")] ∧
    (call_n8n sid text o).1 =
        [("message", text), ("sessionId", sid), ("channel", "voice_call_realtime")] ∧
    (call_n8n_agent sid text o).1.map Prod.fst = ["message", "sessionId", "channel"] := by
  exact ⟨rfl, rfl, rfl, rfl⟩

/-- C7: refuted — with every required variable absent, import-time validation
merely logs a warning and succeeds, and bot.py's constructor builds a bot
whose webhook URL is absent; nothing fails with a configuration error before
sessions are created. -/
theorem C7_startup_counterexample :
    startupMain ⟨none, none, none⟩ = .ok true ∧
    (n8nVoiceBotInit none 0).n8nWebhookUrl = none ∧
    (n8nVoiceBotInit none 0).sessionId = "voice_0" := by
  exact ⟨rfl, rfl, by decide⟩

/-- C7 amended: absence of a mandatory configuration value is deferred, not a
startup failure — module import always succeeds and merely flags a warning
exactly when some required variable is falsy; the error surfaces later:
main.py's VoiceBot constructor, run once per created session, raises exactly
when the webhook URL is falsy, and bot.py's constructor performs no check at
all and stores whatever was read. -/
theorem C7_deferred_config_validation (e : Env) (url : Option String) (epochSeconds : Nat) :
    (startupMain e).isOk = true ∧
    (startupMain e = .ok false ↔
      (envTruthy e.deepgramApiKey && envTruthy e.elevenlabsApiKey &&
        envTruthy e.n8nWebhookUrl) = true) ∧
    ((voiceBotInit url).isOk = true ↔ envTruthy url = true) ∧
    (n8nVoiceBotInit url epochSeconds).n8nWebhookUrl = url := by
  refine ⟨rfl, ?_, ?_, rfl⟩
  · simp [startupMain]
  · cases url with
    | none => simp [voiceBotInit, envTruthy, Except.isOk, Except.toBool]
    | some u =>
      by_cases hu : u = ""
      · simp [voiceBotInit, envTruthy, hu, Except.isOk, Except.toBool]
      · simp [voiceBotInit, envTruthy, hu, Except.isOk, Except.toBool]

/-- C8: refuted — two distinct create operations in the same wall-clock second
(here constructing processors for two different webhook URLs) receive
identical session identifiers, because the identifier is derived from the
whole second alone. -/
theorem C8_same_second_counterexample :
    ¬ ([(n8nProcessorInit "https-url-a" 1700000000).sessionId,
        (n8nProcessorInit "https-url-b" 1700000000).sessionId].Nodup) := by
  decide

/-- C8 amended: the created session identifier is the text voice_ followed by
the decimal wall-clock second and carries nothing else, so the identifiers of
two create operations coincide exactly when the operations happen in the same
whole second — freshness holds across distinct seconds only. -/
theorem C8_session_id_uniqueness (u v : String) (s t : Nat) :
    (n8nProcessorInit u s).sessionId = (n8nProcessorInit v t).sessionId ↔ s = t := by
  constructor
  · exact fun h => mkVoiceSessionId_inj s t h
  · rintro rfl; rfl

/-- C9: the webhook helper of bot.py is total over every modelled HTTP
outcome — success with any body, timeout, HTTP status error, a body that is
not JSON, any other exception — returning a non-empty string in each case;
consequently, for any transcript long enough to be processed, on_user_message
takes the normal reply path and its except-branch apology never fires for
webhook failures. -/
theorem C9_webhook_helper_total (sid text : String) (o : HttpOutcome) :
    ∃ s, (call_n8n_webhook sid text o).2 = .ok s ∧ s ≠ "" ∧
      (¬ (pyStrip text).length < 3 →
        on_user_message sid o text = ⟨[Frame.text s], 1, false⟩) := by
  cases o with
  | success body =>
    refine ⟨extractReplyBot body, rfl, extractReplyBot_ne_empty body, fun h3 => ?_⟩
    simp [on_user_message, call_n8n_webhook, h3]
  | timeout =>
    refine ⟨_, rfl, by decide, fun h3 => ?_⟩
    simp [on_user_message, call_n8n_webhook, h3]
  | statusError c =>
    refine ⟨_, rfl, by decide, fun h3 => ?_⟩
    simp [on_user_message, call_n8n_webhook, h3]
  | jsonError =>
    refine ⟨_, rfl, by decide, fun h3 => ?_⟩
    simp [on_user_message, call_n8n_webhook, h3]
  | otherError =>
    refine ⟨_, rfl, by decide, fun h3 => ?_⟩
    simp [on_user_message, call_n8n_webhook, h3]

/-- C10: a non-200 response of the text-to-speech endpoint makes
text_to_speech return the empty byte string, and process_frame then emits a
TTSAudioRawFrame whose audio is empty, at 24000 Hz with one channel: a TTS
service error yields a silent utterance, not an exception and not a spoken
fallback. -/
theorem C10_tts_error_silent (resp : TTSHttpResponse) (t : String)
    (h : resp.status ≠ 200) :
    text_to_speech t resp = [] ∧
    elevenLabsProcessFrame resp (.text t) = .ttsAudioRaw [] 24000 1 := by
  constructor
  · simp [text_to_speech, h]
  · simp [elevenLabsProcessFrame, text_to_speech, h]

/-- Witness for C10 at a concrete 500 response with a non-empty body. -/
theorem C10_tts_error_silent_witness :
    text_to_speech "hello" ⟨500, [1, 2, 3]⟩ = [] ∧
    elevenLabsProcessFrame ⟨500, [1, 2, 3]⟩ (.text "hello") = .ttsAudioRaw [] 24000 1 :=
  C10_tts_error_silent ⟨500, [1, 2, 3]⟩ "hello" (by decide)

end VoiceCallService
